import Mathlib

/-!
Shallow embedding of the RE-Storage physics dispatch engine
(`src/re_storage/physics/battery.py` and `src/re_storage/physics/solar.py`).

Floating-point values are modelled as exact rationals (`ℚ`); hours of day
are modelled as integers.  Functions that can raise Python exceptions are
embedded as `Except PyError _`; the error constructors mirror the Python
exception classes that the corresponding `raise` statements use
(`ValueError`, `re_storage.core.exceptions.SoCBoundsError`,
`re_storage.core.exceptions.EnergyBalanceError`).
-/

set_option autoImplicit false

namespace REStorage

/-- Python exception classes that the embedded functions can raise. -/
inductive PyError where
  | valueError
  | socBoundsError
  | energyBalanceError
  deriving DecidableEq, Repr

/-- `re_storage.core.types.StrategyMode`. -/
inductive StrategyMode where
  | ARBITRAGE
  | PEAK_SHAVING
  deriving DecidableEq, Repr

/-- `re_storage.core.types.ChargingMode`. -/
inductive ChargingMode where
  | TIME_WINDOW
  | PRECHARGE_TARGET
  deriving DecidableEq, Repr

/-- `re_storage.core.types.GridChargeMode`. -/
inductive GridChargeMode where
  | DISABLED
  | TO_TARGET
  | TO_FULL
  deriving DecidableEq, Repr

/-- `battery.BatteryConfig` (frozen dataclass), field for field. -/
structure BatteryConfig where
  usable_capacity_kwh : ℚ
  power_rating_kw : ℚ
  charge_efficiency : ℚ
  discharge_efficiency : ℚ
  strategy_mode : StrategyMode
  charging_mode : ChargingMode
  charge_start_hour : ℤ
  charge_end_hour : ℤ
  precharge_target_hour : ℤ
  precharge_target_soc_kwh : ℚ
  min_direct_pv_share : ℚ
  active_pv2bess_share : ℚ
  demand_target_kw : ℚ
  grid_charge_mode : GridChargeMode
  grid_charge_capacity_kw : ℚ
  when_needed : Bool := true
  after_sunset : Bool := false
  optimize_mode : Bool := false
  peak_mode : Bool := true
  optimize_start_hour : ℤ := 16
  optimize_end_hour : ℤ := 21
  sunday_peak_start_hour : ℤ := 17
  sunday_peak_end_hour : ℤ := 20
  deriving DecidableEq, Repr

/-- The checks performed by `BatteryConfig.__post_init__`: a constructed
config has positive capacity and power rating and efficiencies in `(0, 1]`. -/
def ValidConfig (c : BatteryConfig) : Prop :=
  0 < c.usable_capacity_kwh ∧ 0 < c.power_rating_kw ∧
    (0 < c.charge_efficiency ∧ c.charge_efficiency ≤ 1) ∧
    (0 < c.discharge_efficiency ∧ c.discharge_efficiency ≤ 1)

instance (c : BatteryConfig) : Decidable (ValidConfig c) := by
  unfold ValidConfig; infer_instance

/-- `battery.DischargeConditions` (frozen dataclass). -/
structure DischargeConditions where
  when_needed : Bool := false
  after_sunset : Bool := false
  optimize : Bool := false
  peak : Bool := false
  deriving DecidableEq, Repr

/-- `DischargeConditions.any_active`. -/
def DischargeConditions.any_active (dc : DischargeConditions) : Bool :=
  dc.when_needed || dc.after_sunset || dc.optimize || dc.peak

/-- `DischargeConditions.active_list`. -/
def DischargeConditions.active_list (dc : DischargeConditions) : List String :=
  (if dc.when_needed then ["when_needed"] else []) ++
    (if dc.after_sunset then ["after_sunset"] else []) ++
    (if dc.optimize then ["optimize"] else []) ++
    (if dc.peak then ["peak"] else [])

/-- `DischargeConditions.count_active`. -/
def DischargeConditions.count_active (dc : DischargeConditions) : ℕ :=
  (if dc.when_needed then 1 else 0) + (if dc.after_sunset then 1 else 0) +
    (if dc.optimize then 1 else 0) + (if dc.peak then 1 else 0)

/-- `battery.BatteryState` (NamedTuple). -/
structure BatteryState where
  soc_kwh : ℚ
  pv_charged_kw : ℚ
  grid_charged_kw : ℚ
  discharged_kw : ℚ
  discharge_permitted : Bool
  active_discharge_conditions : List String
  deriving DecidableEq, Repr

/-- `battery.calculate_charge_limit`.  The four leading `raise ValueError`
guards become `Except.error .valueError`. -/
def calculate_charge_limit (current_soc_kwh max_capacity_kwh charge_efficiency : ℚ)
    (step_hours : ℚ := 1) : Except PyError ℚ :=
  if current_soc_kwh < 0 then .error .valueError
  else if max_capacity_kwh ≤ 0 then .error .valueError
  else if ¬(0 < charge_efficiency ∧ charge_efficiency ≤ 1) then .error .valueError
  else if step_hours ≤ 0 then .error .valueError
  else
    let available_capacity_kwh := max (max_capacity_kwh - current_soc_kwh) 0
    let charge_limit_kwh := available_capacity_kwh / charge_efficiency
    .ok (charge_limit_kwh / step_hours)

/-- The charging-window membership test of
`battery._calculate_pv_to_bess_time_window`, including the wrap-around case
when the window crosses midnight. -/
def in_charge_window (config : BatteryConfig) (hour : ℤ) : Prop :=
  if config.charge_start_hour ≤ config.charge_end_hour then
    config.charge_start_hour ≤ hour ∧ hour ≤ config.charge_end_hour
  else
    hour ≥ config.charge_start_hour ∨ hour ≤ config.charge_end_hour

instance (config : BatteryConfig) (hour : ℤ) :
    Decidable (in_charge_window config hour) := by
  unfold in_charge_window; infer_instance

/-- `battery._calculate_pv_to_bess_time_window` (pure helper, no raises). -/
def calculate_pv_to_bess_time_window (available_for_charging max_charge_power : ℚ)
    (hour : ℤ) (config : BatteryConfig) (is_peak_period : Bool) : ℚ :=
  if ¬in_charge_window config hour then 0
  else if is_peak_period then 0
  else min (available_for_charging * config.active_pv2bess_share) max_charge_power

/-- `battery._calculate_pv_to_bess_precharge` (pure helper, no raises). -/
def calculate_pv_to_bess_precharge (available_for_charging max_charge_power
    current_soc_kwh : ℚ) (hour : ℤ) (config : BatteryConfig) (step_hours : ℚ) : ℚ :=
  if config.precharge_target_hour ≤ hour then 0
  else
    let soc_deficit_kwh := max (config.precharge_target_soc_kwh - current_soc_kwh) 0
    if soc_deficit_kwh ≤ 0 then 0
    else
      let hours_remaining₀ := config.precharge_target_hour - hour
      let hours_remaining : ℤ := if hours_remaining₀ ≤ 0 then 1 else hours_remaining₀
      let required_charge_kw :=
        soc_deficit_kwh / (config.charge_efficiency * (hours_remaining : ℚ))
      min required_charge_kw (min available_for_charging max_charge_power)

/-- `battery.calculate_pv_to_bess`.  Propagates the `ValueError` raised by
`calculate_charge_limit`; the final `raise ValueError("Unknown charging mode")`
branch is unreachable because the Lean enum is exhaustive. -/
def calculate_pv_to_bess (solar_gen_kw load_kw current_soc_kwh : ℚ) (hour : ℤ)
    (config : BatteryConfig) (is_peak_period : Bool) (step_hours : ℚ := 1) :
    Except PyError ℚ :=
  if solar_gen_kw ≤ 0 then .ok 0
  else
    match calculate_charge_limit current_soc_kwh config.usable_capacity_kwh
        config.charge_efficiency step_hours with
    | .error e => .error e
    | .ok charge_limit_kw =>
      let max_charge_power := min charge_limit_kw config.power_rating_kw
      if max_charge_power ≤ 0 then .ok 0
      else
        let min_pv_to_load := load_kw * config.min_direct_pv_share
        let available_for_charging := max (solar_gen_kw - min_pv_to_load) 0
        if available_for_charging ≤ 0 then .ok 0
        else
          match config.charging_mode with
          | .TIME_WINDOW =>
            .ok (calculate_pv_to_bess_time_window available_for_charging
              max_charge_power hour config is_peak_period)
          | .PRECHARGE_TARGET =>
            .ok (calculate_pv_to_bess_precharge available_for_charging
              max_charge_power current_soc_kwh hour config step_hours)

/-- `battery.evaluate_discharge_permission` (total: the Python function has
no `raise`; the overlap warning is a logging side effect only). -/
def evaluate_discharge_permission (hour : ℤ) (load_kw solar_gen_kw
    grid_load_after_solar_kw : ℚ) (config : BatteryConfig)
    (is_peak_period : Bool) (is_sunday : Bool := false) : DischargeConditions :=
  if config.strategy_mode = .PEAK_SHAVING then
    { when_needed := decide (config.demand_target_kw < grid_load_after_solar_kw) }
  else
    { when_needed := config.when_needed && decide (solar_gen_kw < load_kw)
      after_sunset := config.after_sunset && decide (17 ≤ hour)
      optimize := config.optimize_mode &&
        (decide (config.optimize_start_hour ≤ hour ∧ hour ≤ config.optimize_end_hour)
          || is_peak_period)
      peak := config.peak_mode &&
        (is_peak_period || (is_sunday && decide (config.sunday_peak_start_hour ≤ hour ∧
          hour ≤ config.sunday_peak_end_hour))) }

/-- `battery.calculate_discharge_power` (total: no raises). -/
def calculate_discharge_power (load_kw solar_gen_kw pv_to_bess_kw
    current_soc_kwh : ℚ) (config : BatteryConfig) (discharge_permitted : Bool)
    (step_hours : ℚ := 1) : ℚ :=
  if ¬discharge_permitted then 0
  else if current_soc_kwh ≤ 0 then 0
  else
    let pv_available_for_load := max (solar_gen_kw - pv_to_bess_kw) 0
    let unmet_load_kw := max (load_kw - pv_available_for_load) 0
    if unmet_load_kw ≤ 0 then 0
    else
      let max_discharge_from_soc_kw :=
        current_soc_kwh * config.discharge_efficiency / step_hours
      let max_discharge_kw := min max_discharge_from_soc_kw config.power_rating_kw
      min unmet_load_kw max_discharge_kw

/-- `battery.calculate_grid_charge_power` (total: no raises). -/
def calculate_grid_charge_power (current_soc_kwh : ℚ) (config : BatteryConfig)
    (step_hours : ℚ := 1) (max_power_kw : Option ℚ := none) : ℚ :=
  if config.grid_charge_mode = .DISABLED then 0
  else
    let target_kwh :=
      match config.grid_charge_mode with
      | .TO_TARGET => config.grid_charge_capacity_kw
      | _ => config.usable_capacity_kwh
    let charge_needed_kwh := max (target_kwh - current_soc_kwh) 0
    if charge_needed_kwh ≤ 0 then 0
    else
      let charge_rate_kw := charge_needed_kwh / (config.charge_efficiency * step_hours)
      let power_limit_kw :=
        match max_power_kw with
        | none => config.power_rating_kw
        | some m => min config.power_rating_kw m
      min charge_rate_kw (min config.grid_charge_capacity_kw power_limit_kw)

/-- `battery.update_soc`.  The two significant-bounds checks raise
`SoCBoundsError`; otherwise the result is clipped to `[0, capacity]`. -/
def update_soc (previous_soc_kwh pv_charged_kw grid_charged_kw discharged_kw : ℚ)
    (config : BatteryConfig) (step_hours : ℚ := 1) : Except PyError ℚ :=
  let total_charged_kwh := (pv_charged_kw + grid_charged_kw) * step_hours
  let discharged_kwh := discharged_kw * step_hours
  let energy_stored_kwh := total_charged_kwh * config.charge_efficiency
  let energy_extracted_kwh := discharged_kwh / config.discharge_efficiency
  let new_soc_unbounded := previous_soc_kwh + energy_stored_kwh - energy_extracted_kwh
  let tolerance : ℚ := 1/100
  if new_soc_unbounded < -tolerance then .error .socBoundsError
  else if config.usable_capacity_kwh + tolerance < new_soc_unbounded then
    .error .socBoundsError
  else .ok (min (max new_soc_unbounded 0) config.usable_capacity_kwh)

/-- `battery.dispatch_single_timestep`.  Errors raised by
`calculate_pv_to_bess` (ValueError) or `update_soc` (SoCBoundsError)
propagate; otherwise one `BatteryState` is returned. -/
def dispatch_single_timestep (solar_gen_kw load_kw previous_soc_kwh : ℚ)
    (hour : ℤ) (config : BatteryConfig) (is_peak_period : Bool)
    (is_sunday : Bool := false) (step_hours : ℚ := 1) :
    Except PyError BatteryState :=
  match calculate_pv_to_bess solar_gen_kw load_kw previous_soc_kwh hour config
      is_peak_period step_hours with
  | .error e => .error e
  | .ok pv_to_bess_kw =>
    let pv_charged_kwh := pv_to_bess_kw * step_hours * config.charge_efficiency
    let soc_after_pv := min (previous_soc_kwh + pv_charged_kwh) config.usable_capacity_kwh
    let remaining_power_kw := max (config.power_rating_kw - pv_to_bess_kw) 0
    let grid_charge_kw := calculate_grid_charge_power soc_after_pv config step_hours
      (some remaining_power_kw)
    let total_charged_kwh := (pv_to_bess_kw + grid_charge_kw) * step_hours
    let soc_after_charge := min
      (previous_soc_kwh + total_charged_kwh * config.charge_efficiency)
      config.usable_capacity_kwh
    let grid_load_after_solar := max (load_kw - (solar_gen_kw - pv_to_bess_kw)) 0
    let conditions := evaluate_discharge_permission hour load_kw solar_gen_kw
      grid_load_after_solar config is_peak_period is_sunday
    let discharge_kw := calculate_discharge_power load_kw solar_gen_kw pv_to_bess_kw
      soc_after_charge config conditions.any_active step_hours
    match update_soc previous_soc_kwh pv_to_bess_kw grid_charge_kw discharge_kw
        config step_hours with
    | .error e => .error e
    | .ok final_soc =>
      .ok { soc_kwh := final_soc
            pv_charged_kw := pv_to_bess_kw
            grid_charged_kw := grid_charge_kw
            discharged_kw := discharge_kw
            discharge_permitted := conditions.any_active
            active_discharge_conditions := conditions.active_list }

/-- `solar.calculate_surplus_generation`.  All four `raise` statements in the
Python function are `raise ValueError(...)` (the negative-surplus one carries
an "energy balance error" message but is still a `ValueError`). -/
def calculate_surplus_generation (solar_gen_kw direct_consumption_kw
    pv_charged_kw : ℚ) : Except PyError ℚ :=
  if solar_gen_kw < 0 then .error .valueError
  else if direct_consumption_kw < 0 then .error .valueError
  else if pv_charged_kw < 0 then .error .valueError
  else
    let surplus := solar_gen_kw - direct_consumption_kw - pv_charged_kw
    if surplus < -(1/1000) then .error .valueError
    else .ok (max surplus 0)

/-- A concrete valid arbitrage/time-window configuration used to witness
the hypothesised theorems on concrete inputs. -/
def cfgA : BatteryConfig :=
  { usable_capacity_kwh := 100
    power_rating_kw := 50
    charge_efficiency := 9/10
    discharge_efficiency := 9/10
    strategy_mode := .ARBITRAGE
    charging_mode := .TIME_WINDOW
    charge_start_hour := 9
    charge_end_hour := 15
    precharge_target_hour := 8
    precharge_target_soc_kwh := 80
    min_direct_pv_share := 1/10
    active_pv2bess_share := 1/2
    demand_target_kw := 0
    grid_charge_mode := .DISABLED
    grid_charge_capacity_kw := 0 }

/-- A concrete valid configuration with equal charge and discharge
efficiency `1/2`, used for the round-trip claims. -/
def cfgRT : BatteryConfig :=
  { cfgA with usable_capacity_kwh := 1
              charge_efficiency := 1/2
              discharge_efficiency := 1/2 }

/-- C1: for a valid `BatteryConfig` and positive `step_hours`, `update_soc`
computes `new = prev + (pv + grid) · step_hours · charge_efficiency
− discharged · step_hours / discharge_efficiency`; it raises `SoCBoundsError`
iff `new < −0.01` or `new > capacity + 0.01`, and otherwise returns `new`
clipped to `[0, capacity]`. -/
theorem update_soc_spec (prev pv g d : ℚ) (c : BatteryConfig) (h : ℚ)
    (hc : ValidConfig c) (hh : 0 < h) :
    (update_soc prev pv g d c h = .error .socBoundsError ↔
      (prev + (pv + g) * h * c.charge_efficiency - d * h / c.discharge_efficiency
          < -(1/100) ∨
        c.usable_capacity_kwh + 1/100 <
          prev + (pv + g) * h * c.charge_efficiency -
            d * h / c.discharge_efficiency)) ∧
    (¬(prev + (pv + g) * h * c.charge_efficiency - d * h / c.discharge_efficiency
          < -(1/100) ∨
        c.usable_capacity_kwh + 1/100 <
          prev + (pv + g) * h * c.charge_efficiency -
            d * h / c.discharge_efficiency) →
      update_soc prev pv g d c h =
        .ok (min (max (prev + (pv + g) * h * c.charge_efficiency -
          d * h / c.discharge_efficiency) 0) c.usable_capacity_kwh)) := by
  simp only [update_soc]
  split_ifs with h1 h2
  · exact ⟨iff_of_true rfl (Or.inl h1), fun hn => absurd (Or.inl h1) hn⟩
  · exact ⟨iff_of_true rfl (Or.inr h2), fun hn => absurd (Or.inr h2) hn⟩
  · exact ⟨iff_of_false (by simp) (not_or.mpr ⟨h1, h2⟩), fun _ => rfl⟩

/-- Closed-form instance of `update_soc_spec` at a concrete input. -/
theorem update_soc_spec_witness :
    (update_soc 50 10 0 0 cfgA 1 = .error .socBoundsError ↔
      ((50:ℚ) + (10 + 0) * 1 * cfgA.charge_efficiency -
          0 * 1 / cfgA.discharge_efficiency < -(1/100) ∨
        cfgA.usable_capacity_kwh + 1/100 <
          50 + (10 + 0) * 1 * cfgA.charge_efficiency -
            0 * 1 / cfgA.discharge_efficiency)) ∧
    (¬((50:ℚ) + (10 + 0) * 1 * cfgA.charge_efficiency -
          0 * 1 / cfgA.discharge_efficiency < -(1/100) ∨
        cfgA.usable_capacity_kwh + 1/100 <
          50 + (10 + 0) * 1 * cfgA.charge_efficiency -
            0 * 1 / cfgA.discharge_efficiency) →
      update_soc 50 10 0 0 cfgA 1 =
        .ok (min (max ((50:ℚ) + (10 + 0) * 1 * cfgA.charge_efficiency -
          0 * 1 / cfgA.discharge_efficiency) 0) cfgA.usable_capacity_kwh)) :=
  update_soc_spec 50 10 0 0 cfgA 1 (by norm_num [ValidConfig, cfgA]) (by norm_num)

/-- C6: for fixed positive capacity, charge efficiency in `(0,1]` and
positive `step_hours`, `calculate_charge_limit` succeeds on `[0, capacity]`,
is non-negative there, vanishes exactly at `soc = capacity`, and is strictly
decreasing in `soc`. -/
theorem calculate_charge_limit_monotone (cap ce h : ℚ) (hcap : 0 < cap)
    (hce : 0 < ce ∧ ce ≤ 1) (hh : 0 < h) :
    (∀ s, 0 ≤ s → s ≤ cap → ∃ v, calculate_charge_limit s cap ce h = .ok v ∧
      0 ≤ v ∧ (v = 0 ↔ s = cap)) ∧
    (∀ s₁ s₂ v₁ v₂, 0 ≤ s₁ → s₁ < s₂ → s₂ ≤ cap →
      calculate_charge_limit s₁ cap ce h = .ok v₁ →
      calculate_charge_limit s₂ cap ce h = .ok v₂ → v₂ < v₁) := by
  have hok : ∀ s : ℚ, 0 ≤ s →
      calculate_charge_limit s cap ce h = .ok (max (cap - s) 0 / ce / h) := by
    intro s hs
    simp only [calculate_charge_limit, if_neg (not_lt.mpr hs),
      if_neg (not_le.mpr hcap), if_neg (not_not_intro hce), if_neg (not_le.mpr hh)]
  constructor
  · intro s hs hsc
    refine ⟨max (cap - s) 0 / ce / h, hok s hs, ?_, ?_⟩
    · exact div_nonneg (div_nonneg (le_max_right _ _) (le_of_lt hce.1)) (le_of_lt hh)
    · rw [max_eq_left (by linarith)]
      rw [div_eq_iff (ne_of_gt hh), div_eq_iff (ne_of_gt hce.1), zero_mul, zero_mul,
        sub_eq_zero]
      exact ⟨fun hcs => hcs.symm, fun hcs => hcs.symm⟩
  · intro s₁ s₂ v₁ v₂ hs₁ hlt hs₂c hv₁ hv₂
    rw [hok s₁ hs₁] at hv₁
    rw [hok s₂ (le_of_lt (lt_of_le_of_lt hs₁ hlt))] at hv₂
    have e₁ : v₁ = (cap - s₁) / ce / h := by
      have := Except.ok.inj hv₁
      rw [← this, max_eq_left (by linarith)]
    have e₂ : v₂ = (cap - s₂) / ce / h := by
      have := Except.ok.inj hv₂
      rw [← this, max_eq_left (by linarith)]
    rw [e₁, e₂, div_lt_div_iff_of_pos_right hh, div_lt_div_iff_of_pos_right hce.1]
    linarith

/-- Closed-form instance of `calculate_charge_limit_monotone` at concrete
parameters. -/
theorem calculate_charge_limit_monotone_witness :
    (∀ s, 0 ≤ s → s ≤ (100:ℚ) → ∃ v,
      calculate_charge_limit s 100 (9/10) 1 = .ok v ∧ 0 ≤ v ∧ (v = 0 ↔ s = 100)) ∧
    (∀ s₁ s₂ v₁ v₂, 0 ≤ s₁ → s₁ < s₂ → s₂ ≤ (100:ℚ) →
      calculate_charge_limit s₁ 100 (9/10) 1 = .ok v₁ →
      calculate_charge_limit s₂ 100 (9/10) 1 = .ok v₂ → v₂ < v₁) :=
  calculate_charge_limit_monotone 100 (9/10) 1 (by norm_num) (by norm_num)
    (by norm_num)

/-- C4: `calculate_discharge_power` is zero when discharge is not permitted,
when SoC is non-positive or when there is no unmet load; otherwise it is
`min(unmet_load, min(soc·discharge_efficiency/step_hours, power_rating))`;
and for all inputs it never exceeds `min(unmet_load, power_rating)`. -/
theorem calculate_discharge_power_spec (load solar pv2b s : ℚ) (c : BatteryConfig)
    (perm : Bool) (h : ℚ) (hc : ValidConfig c) (hh : 0 < h) :
    (perm = false → calculate_discharge_power load solar pv2b s c perm h = 0) ∧
    (s ≤ 0 → calculate_discharge_power load solar pv2b s c perm h = 0) ∧
    (max (load - max (solar - pv2b) 0) 0 ≤ 0 →
      calculate_discharge_power load solar pv2b s c perm h = 0) ∧
    (perm = true → 0 < s → 0 < max (load - max (solar - pv2b) 0) 0 →
      calculate_discharge_power load solar pv2b s c perm h =
        min (max (load - max (solar - pv2b) 0) 0)
          (min (s * c.discharge_efficiency / h) c.power_rating_kw)) ∧
    calculate_discharge_power load solar pv2b s c perm h ≤
      min (max (load - max (solar - pv2b) 0) 0) c.power_rating_kw := by
  have hum : (0:ℚ) ≤ max (load - max (solar - pv2b) 0) 0 := le_max_right _ _
  have hrat : (0:ℚ) < c.power_rating_kw := hc.2.1
  by_cases hp : perm = true
  · by_cases hs : s ≤ 0
    · have hres : calculate_discharge_power load solar pv2b s c perm h = 0 := by
        simp only [calculate_discharge_power]
        rw [if_neg (not_not_intro hp), if_pos hs]
      exact ⟨fun _ => hres, fun _ => hres, fun _ => hres,
        fun _ hslt _ => absurd hs (not_le.mpr hslt),
        by rw [hres]; exact le_min hum hrat.le⟩
    · by_cases hu : max (load - max (solar - pv2b) 0) 0 ≤ 0
      · have hres : calculate_discharge_power load solar pv2b s c perm h = 0 := by
          simp only [calculate_discharge_power]
          rw [if_neg (not_not_intro hp), if_neg hs, if_pos hu]
        exact ⟨fun _ => hres, fun _ => hres, fun _ => hres,
          fun _ _ hult => absurd hu (not_le.mpr hult),
          by rw [hres]; exact le_min hum hrat.le⟩
      · have hres : calculate_discharge_power load solar pv2b s c perm h =
            min (max (load - max (solar - pv2b) 0) 0)
              (min (s * c.discharge_efficiency / h) c.power_rating_kw) := by
          simp only [calculate_discharge_power]
          rw [if_neg (not_not_intro hp), if_neg hs, if_neg hu]
        refine ⟨fun hpf => absurd hp (by simp [hpf]), fun hsle => absurd hsle hs,
          fun hule => absurd hule hu, fun _ _ _ => hres, ?_⟩
        rw [hres]
        exact le_min (min_le_left _ _) (le_trans (min_le_right _ _) (min_le_right _ _))
  · have hres : calculate_discharge_power load solar pv2b s c perm h = 0 := by
      simp only [calculate_discharge_power]
      rw [if_pos hp]
    exact ⟨fun _ => hres, fun _ => hres, fun _ => hres, fun hpt _ _ => absurd hpt hp,
      by rw [hres]; exact le_min hum hrat.le⟩

/-- Closed-form instance of `calculate_discharge_power_spec` at a concrete
input (`load 30, solar 10, soc 100` yields the unmet load `20`). -/
theorem calculate_discharge_power_spec_witness :
    ((true = false → calculate_discharge_power 30 10 0 100 cfgA true 1 = 0) ∧
      ((100:ℚ) ≤ 0 → calculate_discharge_power 30 10 0 100 cfgA true 1 = 0) ∧
      (max ((30:ℚ) - max ((10:ℚ) - 0) 0) 0 ≤ 0 →
        calculate_discharge_power 30 10 0 100 cfgA true 1 = 0) ∧
      (true = true → (0:ℚ) < 100 → 0 < max ((30:ℚ) - max ((10:ℚ) - 0) 0) 0 →
        calculate_discharge_power 30 10 0 100 cfgA true 1 =
          min (max ((30:ℚ) - max ((10:ℚ) - 0) 0) 0)
            (min (100 * cfgA.discharge_efficiency / 1) cfgA.power_rating_kw)) ∧
      calculate_discharge_power 30 10 0 100 cfgA true 1 ≤
        min (max ((30:ℚ) - max ((10:ℚ) - 0) 0) 0) cfgA.power_rating_kw) :=
  calculate_discharge_power_spec 30 10 0 100 cfgA true 1
    (by norm_num [ValidConfig, cfgA]) (by norm_num)

/-- Helper: successful `update_soc` returns the clipped unbounded SoC. -/
theorem update_soc_ok (p a g d : ℚ) (c : BatteryConfig) (h r : ℚ)
    (hr : update_soc p a g d c h = .ok r) :
    r = min (max (p + (a + g) * h * c.charge_efficiency -
      d * h / c.discharge_efficiency) 0) c.usable_capacity_kwh := by
  simp only [update_soc] at hr
  split_ifs at hr
  exact (Except.ok.inj hr).symm

/-- Helper: when the unbounded new SoC lies in `[0, capacity]`, `update_soc`
returns it unchanged (no error, no effective clipping). -/
theorem update_soc_ok_of_bounds (p a g d : ℚ) (c : BatteryConfig) (h : ℚ)
    (h0 : 0 ≤ p + (a + g) * h * c.charge_efficiency - d * h / c.discharge_efficiency)
    (h1 : p + (a + g) * h * c.charge_efficiency - d * h / c.discharge_efficiency ≤
      c.usable_capacity_kwh) :
    update_soc p a g d c h =
      .ok (p + (a + g) * h * c.charge_efficiency - d * h / c.discharge_efficiency) := by
  simp only [update_soc]
  rw [if_neg (not_lt.mpr (by linarith)), if_neg (not_lt.mpr (by linarith)),
    max_eq_left h0, min_eq_left h1]

/-- Helper: on validated inputs `calculate_charge_limit` succeeds with the
headroom-over-efficiency formula. -/
theorem charge_limit_ok (s cap ce h : ℚ) (hs : 0 ≤ s) (hcap : 0 < cap)
    (hce : 0 < ce ∧ ce ≤ 1) (hh : 0 < h) :
    calculate_charge_limit s cap ce h = .ok (max (cap - s) 0 / ce / h) := by
  simp only [calculate_charge_limit, if_neg (not_lt.mpr hs),
    if_neg (not_le.mpr hcap), if_neg (not_not_intro hce), if_neg (not_le.mpr hh)]

/-- Helper: on a valid config with `prev_soc ∈ [0, capacity]` and a
non-negative PV share, `calculate_pv_to_bess` succeeds and the energy it
stores fits in the remaining headroom. -/
theorem pv_to_bess_bounds (solar load prev : ℚ) (hour : ℤ) (c : BatteryConfig)
    (peak : Bool) (h : ℚ) (hc : ValidConfig c)
    (hshare : 0 ≤ c.active_pv2bess_share)
    (hprev0 : 0 ≤ prev) (hprevc : prev ≤ c.usable_capacity_kwh) (hh : 0 < h) :
    ∃ v, calculate_pv_to_bess solar load prev hour c peak h = .ok v ∧ 0 ≤ v ∧
      v * h * c.charge_efficiency ≤ c.usable_capacity_kwh - prev := by
  have hce := hc.2.2.1
  have hsub : (0:ℚ) ≤ c.usable_capacity_kwh - prev := by linarith
  have hzero : (0:ℚ) * h * c.charge_efficiency ≤ c.usable_capacity_kwh - prev := by
    simpa using hsub
  have hkey : ∀ x : ℚ,
      x ≤ max (c.usable_capacity_kwh - prev) 0 / c.charge_efficiency / h →
      x * h * c.charge_efficiency ≤ c.usable_capacity_kwh - prev := by
    intro x hx
    rw [max_eq_left hsub, div_div] at hx
    have hxm := (le_div_iff (mul_pos hce.1 hh)).mp hx
    calc x * h * c.charge_efficiency = x * (c.charge_efficiency * h) := by ring
      _ ≤ c.usable_capacity_kwh - prev := hxm
  by_cases hsol : solar ≤ 0
  · refine ⟨0, ?_, le_refl 0, hzero⟩
    simp only [calculate_pv_to_bess]
    rw [if_pos hsol]
  · simp only [calculate_pv_to_bess,
      charge_limit_ok prev c.usable_capacity_kwh c.charge_efficiency h hprev0 hc.1
        hce hh]
    rw [if_neg hsol]
    by_cases hM : min (max (c.usable_capacity_kwh - prev) 0 / c.charge_efficiency / h)
        c.power_rating_kw ≤ 0
    · rw [if_pos hM]
      exact ⟨0, rfl, le_refl 0, hzero⟩
    · rw [if_neg hM]
      by_cases hav : max (solar - load * c.min_direct_pv_share) 0 ≤ 0
      · rw [if_pos hav]
        exact ⟨0, rfl, le_refl 0, hzero⟩
      · rw [if_neg hav]
        have hM0 : 0 ≤ min (max (c.usable_capacity_kwh - prev) 0 /
            c.charge_efficiency / h) c.power_rating_kw := (not_le.mp hM).le
        have hav0 : 0 ≤ max (solar - load * c.min_direct_pv_share) 0 :=
          le_max_right _ _
        cases hcm : c.charging_mode with
        | TIME_WINDOW =>
          refine ⟨_, rfl, ?_, ?_⟩
          · simp only [calculate_pv_to_bess_time_window]
            split_ifs
            all_goals first
              | exact le_refl 0
              | exact le_min (mul_nonneg hav0 hshare) hM0
          · simp only [calculate_pv_to_bess_time_window]
            split_ifs
            all_goals first
              | exact hzero
              | exact hkey _ ((min_le_right _ _).trans (min_le_left _ _))
        | PRECHARGE_TARGET =>
          have hreq0 : ∀ z : ℤ, 0 < z →
              0 ≤ max (c.precharge_target_soc_kwh - prev) 0 /
                (c.charge_efficiency * (z : ℚ)) := by
            intro z hz
            exact div_nonneg (le_max_right _ _)
              (mul_pos hce.1 (by exact_mod_cast hz)).le
          refine ⟨_, rfl, ?_, ?_⟩
          · simp only [calculate_pv_to_bess_precharge]
            split_ifs with h1 h2 h3
            · exact le_refl 0
            · exact le_refl 0
            · exact le_min (hreq0 1 one_pos) (le_min hav0 hM0)
            · exact le_min (hreq0 _ (by omega)) (le_min hav0 hM0)
          · simp only [calculate_pv_to_bess_precharge]
            split_ifs with h1 h2 h3
            · exact hzero
            · exact hzero
            · exact hkey _
                (((min_le_right _ _).trans (min_le_right _ _)).trans (min_le_left _ _))
            · exact hkey _
                (((min_le_right _ _).trans (min_le_right _ _)).trans (min_le_left _ _))

/-- Helper: under DISABLED or a TO_TARGET target not exceeding capacity,
grid charging is non-negative and its stored energy fits in the headroom
above `s`. -/
theorem grid_charge_bounds (s : ℚ) (c : BatteryConfig) (h : ℚ) (mp : Option ℚ)
    (hc : ValidConfig c)
    (hgrid : c.grid_charge_mode = .DISABLED ∨
      (c.grid_charge_mode = .TO_TARGET ∧
        c.grid_charge_capacity_kw ≤ c.usable_capacity_kwh))
    (hs0 : 0 ≤ s) (hsc : s ≤ c.usable_capacity_kwh)
    (hmp : ∀ m, mp = some m → 0 ≤ m) (hh : 0 < h) :
    0 ≤ calculate_grid_charge_power s c h mp ∧
      calculate_grid_charge_power s c h mp * h * c.charge_efficiency ≤
        c.usable_capacity_kwh - s := by
  have hce := hc.2.2.1
  have hsub : (0:ℚ) ≤ c.usable_capacity_kwh - s := by linarith
  have hzero : (0:ℚ) * h * c.charge_efficiency ≤ c.usable_capacity_kwh - s := by
    simpa using hsub
  rcases hgrid with hdis | ⟨htgt, hcaple⟩
  · simp only [calculate_grid_charge_power, hdis, if_pos]
    exact ⟨le_refl 0, hzero⟩
  · by_cases hneed : max (c.grid_charge_capacity_kw - s) 0 ≤ 0
    · have hval : calculate_grid_charge_power s c h mp = 0 := by
        simp only [calculate_grid_charge_power, htgt]
        rw [if_neg (by simp), if_pos hneed]
      rw [hval]
      exact ⟨le_refl 0, hzero⟩
    · have hneedpos : 0 < c.grid_charge_capacity_kw - s := by
        rcases le_or_lt (c.grid_charge_capacity_kw - s) 0 with h' | h'
        · exact absurd (by rw [max_eq_right h']) hneed
        · exact h'
      have hmain : ∀ P : ℚ, 0 ≤ P →
          0 ≤ min (max (c.grid_charge_capacity_kw - s) 0 /
              (c.charge_efficiency * h)) (min c.grid_charge_capacity_kw P) ∧
            min (max (c.grid_charge_capacity_kw - s) 0 /
                (c.charge_efficiency * h)) (min c.grid_charge_capacity_kw P) *
              h * c.charge_efficiency ≤ c.usable_capacity_kwh - s := by
        intro P hP
        refine ⟨le_min (div_nonneg (le_max_right _ _) (mul_pos hce.1 hh).le)
          (le_min (by linarith) hP), ?_⟩
        have hmaxeq : max (c.grid_charge_capacity_kw - s) 0 =
            c.grid_charge_capacity_kw - s := max_eq_left hneedpos.le
        have hle := min_le_left (max (c.grid_charge_capacity_kw - s) 0 /
          (c.charge_efficiency * h)) (min c.grid_charge_capacity_kw P)
        nth_rewrite 2 [hmaxeq] at hle
        have hmul := (le_div_iff (mul_pos hce.1 hh)).mp hle
        have hring : min (max (c.grid_charge_capacity_kw - s) 0 /
              (c.charge_efficiency * h)) (min c.grid_charge_capacity_kw P) * h *
            c.charge_efficiency =
            min (max (c.grid_charge_capacity_kw - s) 0 /
              (c.charge_efficiency * h)) (min c.grid_charge_capacity_kw P) *
              (c.charge_efficiency * h) := by ring
        rw [hring]
        linarith
      cases mp with
      | none =>
        have hval : calculate_grid_charge_power s c h none =
            min (max (c.grid_charge_capacity_kw - s) 0 /
              (c.charge_efficiency * h))
              (min c.grid_charge_capacity_kw c.power_rating_kw) := by
          simp only [calculate_grid_charge_power, htgt]
          rw [if_neg (by simp), if_neg hneed]
        rw [hval]
        exact hmain c.power_rating_kw hc.2.1.le
      | some m =>
        have hval : calculate_grid_charge_power s c h (some m) =
            min (max (c.grid_charge_capacity_kw - s) 0 /
              (c.charge_efficiency * h))
              (min c.grid_charge_capacity_kw (min c.power_rating_kw m)) := by
          simp only [calculate_grid_charge_power, htgt]
          rw [if_neg (by simp), if_neg hneed]
        rw [hval]
        exact hmain (min c.power_rating_kw m) (le_min hc.2.1.le (hmp m rfl))

/-- Helper: discharge power is non-negative and the energy it extracts never
exceeds the SoC it was sized against. -/
theorem discharge_power_bounds (load solar pv2b s : ℚ) (c : BatteryConfig)
    (perm : Bool) (h : ℚ) (hc : ValidConfig c) (hh : 0 < h) (hs0 : 0 ≤ s) :
    0 ≤ calculate_discharge_power load solar pv2b s c perm h ∧
      calculate_discharge_power load solar pv2b s c perm h * h /
        c.discharge_efficiency ≤ s := by
  have hde := hc.2.2.2
  have hzero : (0:ℚ) * h / c.discharge_efficiency ≤ s := by simpa using hs0
  simp only [calculate_discharge_power]
  by_cases hp : ¬(perm = true)
  · rw [if_pos hp]
    exact ⟨le_refl 0, hzero⟩
  · rw [if_neg hp]
    by_cases hs : s ≤ 0
    · rw [if_pos hs]
      exact ⟨le_refl 0, hzero⟩
    · rw [if_neg hs]
      by_cases hu : max (load - max (solar - pv2b) 0) 0 ≤ 0
      · rw [if_pos hu]
        exact ⟨le_refl 0, hzero⟩
      · rw [if_neg hu]
        refine ⟨le_min (le_max_right _ _)
          (le_min (div_nonneg (mul_nonneg hs0 hde.1.le) hh.le) hc.2.1.le), ?_⟩
        have hle : min (max (load - max (solar - pv2b) 0) 0)
            (min (s * c.discharge_efficiency / h) c.power_rating_kw) ≤
            s * c.discharge_efficiency / h :=
          (min_le_right _ _).trans (min_le_left _ _)
        have hmul := (le_div_iff hh).mp hle
        rw [div_le_iff hde.1]
        exact hmul

/-- C2: with grid charging disabled or targeting at most the usable
capacity, a valid config (its PV share being a ratio, hence non-negative),
`prev_soc ∈ [0, capacity]`, non-negative solar and load and positive
`step_hours`, `dispatch_single_timestep` never raises `SoCBoundsError`: it
returns a state whose committed SoC lies in `[0, usable_capacity_kwh]`. -/
theorem dispatch_soc_in_bounds (solar load prev : ℚ) (hour : ℤ) (c : BatteryConfig)
    (peak sunday : Bool) (h : ℚ) (hc : ValidConfig c)
    (hshare : 0 ≤ c.active_pv2bess_share)
    (hgrid : c.grid_charge_mode = .DISABLED ∨
      (c.grid_charge_mode = .TO_TARGET ∧
        c.grid_charge_capacity_kw ≤ c.usable_capacity_kwh))
    (hprev0 : 0 ≤ prev) (hprevc : prev ≤ c.usable_capacity_kwh)
    (hsolar : 0 ≤ solar) (hload : 0 ≤ load) (hh : 0 < h) :
    ∃ st, dispatch_single_timestep solar load prev hour c peak sunday h = .ok st ∧
      0 ≤ st.soc_kwh ∧ st.soc_kwh ≤ c.usable_capacity_kwh := by
  have hce := hc.2.2.1
  have hde := hc.2.2.2
  obtain ⟨v, hv, hv0, hvle⟩ := pv_to_bess_bounds solar load prev hour c peak h hc
    hshare hprev0 hprevc hh
  have hvhce : 0 ≤ v * h * c.charge_efficiency :=
    mul_nonneg (mul_nonneg hv0 hh.le) hce.1.le
  have hs1eq : min (prev + v * h * c.charge_efficiency) c.usable_capacity_kwh =
      prev + v * h * c.charge_efficiency := min_eq_left (by linarith)
  have hs1a : 0 ≤ min (prev + v * h * c.charge_efficiency) c.usable_capacity_kwh :=
    le_min (by linarith) hc.1.le
  have hs1b : min (prev + v * h * c.charge_efficiency) c.usable_capacity_kwh ≤
      c.usable_capacity_kwh := min_le_right _ _
  obtain ⟨hg0, hgle⟩ := grid_charge_bounds
    (min (prev + v * h * c.charge_efficiency) c.usable_capacity_kwh) c h
    (some (max (c.power_rating_kw - v) 0)) hc hgrid hs1a hs1b
    (fun m hm => by injection hm with hm2; rw [← hm2]; exact le_max_right _ _) hh
  set g := calculate_grid_charge_power
    (min (prev + v * h * c.charge_efficiency) c.usable_capacity_kwh) c h
    (some (max (c.power_rating_kw - v) 0)) with hgdef
  rw [hs1eq] at hgle
  have hsplit : (v + g) * h * c.charge_efficiency =
      v * h * c.charge_efficiency + g * h * c.charge_efficiency := by ring
  have hvg0 : 0 ≤ (v + g) * h * c.charge_efficiency :=
    mul_nonneg (mul_nonneg (by linarith) hh.le) hce.1.le
  have hstored : (v + g) * h * c.charge_efficiency ≤ c.usable_capacity_kwh - prev := by
    rw [hsplit]
    linarith
  have hs2a : 0 ≤ min (prev + (v + g) * h * c.charge_efficiency)
      c.usable_capacity_kwh := le_min (by linarith) hc.1.le
  set conds := evaluate_discharge_permission hour load solar
    (max (load - (solar - v)) 0) c peak sunday with hcondsdef
  obtain ⟨hd0, hdle⟩ := discharge_power_bounds load solar v
    (min (prev + (v + g) * h * c.charge_efficiency) c.usable_capacity_kwh) c
    conds.any_active h hc hh hs2a
  set d := calculate_discharge_power load solar v
    (min (prev + (v + g) * h * c.charge_efficiency) c.usable_capacity_kwh) c
    conds.any_active h with hddef
  have hdle2 : d * h / c.discharge_efficiency ≤
      prev + (v + g) * h * c.charge_efficiency := hdle.trans (min_le_left _ _)
  have hdnn : 0 ≤ d * h / c.discharge_efficiency :=
    div_nonneg (mul_nonneg hd0 hh.le) hde.1.le
  have hnew0 : 0 ≤ prev + (v + g) * h * c.charge_efficiency -
      d * h / c.discharge_efficiency := by linarith
  have hnewc : prev + (v + g) * h * c.charge_efficiency -
      d * h / c.discharge_efficiency ≤ c.usable_capacity_kwh := by linarith
  have hupdate := update_soc_ok_of_bounds prev v g d c h hnew0 hnewc
  refine ⟨⟨prev + (v + g) * h * c.charge_efficiency - d * h / c.discharge_efficiency,
    v, g, d, conds.any_active, conds.active_list⟩, ?_, by simpa using hnew0,
    by simpa using hnewc⟩
  simp only [dispatch_single_timestep, hv]
  rw [← hgdef, ← hcondsdef, ← hddef, hupdate]

/-- Closed-form instance of `dispatch_soc_in_bounds` at a concrete input. -/
theorem dispatch_soc_in_bounds_witness :
    ∃ st, dispatch_single_timestep 100 30 50 10 cfgA false false 1 = .ok st ∧
      0 ≤ st.soc_kwh ∧ st.soc_kwh ≤ cfgA.usable_capacity_kwh :=
  dispatch_soc_in_bounds 100 30 50 10 cfgA false false 1
    (by norm_num [ValidConfig, cfgA]) (by norm_num [cfgA]) (Or.inl rfl)
    (by norm_num) (by norm_num [cfgA]) (by norm_num) (by norm_num) (by norm_num)

/-- C3: whenever `dispatch_single_timestep` returns normally, the committed
SoC in the returned state is exactly `update_soc` applied to the original
`previous_soc_kwh` and the three power flows carried in that same state; the
intermediate step 2-3 SoC estimates do not enter it. -/
theorem dispatch_commits_update_soc (solar load prev : ℚ) (hour : ℤ)
    (c : BatteryConfig) (peak sunday : Bool) (h : ℚ) (st : BatteryState)
    (hd : dispatch_single_timestep solar load prev hour c peak sunday h = .ok st) :
    update_soc prev st.pv_charged_kw st.grid_charged_kw st.discharged_kw c h =
      .ok st.soc_kwh := by
  simp only [dispatch_single_timestep] at hd
  split at hd
  · exact absurd hd (by simp)
  · split at hd
    · exact absurd hd (by simp)
    · rename_i v hv fs hupd
      obtain rfl := (Except.ok.inj hd).symm
      exact hupd

/-- Closed-form instance of `dispatch_commits_update_soc` at a concrete
input. -/
theorem dispatch_commits_update_soc_witness :
    update_soc 50 (BatteryState.mk (1873/20) (97/2) 0 0 false []).pv_charged_kw
      (BatteryState.mk (1873/20) (97/2) 0 0 false []).grid_charged_kw
      (BatteryState.mk (1873/20) (97/2) 0 0 false []).discharged_kw cfgA 1 =
      .ok (BatteryState.mk (1873/20) (97/2) 0 0 false []).soc_kwh :=
  dispatch_commits_update_soc 100 30 50 10 cfgA false false 1
    (BatteryState.mk (1873/20) (97/2) 0 0 false []) (by
      norm_num [dispatch_single_timestep, calculate_pv_to_bess,
        calculate_charge_limit, calculate_pv_to_bess_time_window,
        in_charge_window, calculate_grid_charge_power,
        evaluate_discharge_permission, DischargeConditions.any_active,
        DischargeConditions.active_list, calculate_discharge_power, update_soc,
        cfgA])

/-- Helper: the boolean discharge decision agrees with the emptiness of the
active-condition name list. -/
theorem any_active_iff_active_list_ne_nil (dc : DischargeConditions) :
    dc.any_active = true ↔ dc.active_list ≠ [] := by
  rcases dc with ⟨w, a, o, p⟩
  cases w <;> cases a <;> cases o <;> cases p <;>
    simp [DischargeConditions.any_active, DischargeConditions.active_list]

/-- C10: in every `BatteryState` returned by `dispatch_single_timestep`, the
`discharge_permitted` flag is true iff the `active_discharge_conditions`
list is non-empty — both derive from the same `DischargeConditions`. -/
theorem dispatch_permitted_iff_conditions (solar load prev : ℚ) (hour : ℤ)
    (c : BatteryConfig) (peak sunday : Bool) (h : ℚ) (st : BatteryState)
    (hd : dispatch_single_timestep solar load prev hour c peak sunday h = .ok st) :
    st.discharge_permitted = true ↔ st.active_discharge_conditions ≠ [] := by
  simp only [dispatch_single_timestep] at hd
  split at hd
  · exact absurd hd (by simp)
  · split at hd
    · exact absurd hd (by simp)
    · obtain rfl := (Except.ok.inj hd).symm
      exact any_active_iff_active_list_ne_nil _

/-- Closed-form instance of `dispatch_permitted_iff_conditions` at a concrete
input whose returned state permits discharge through the peak condition. -/
theorem dispatch_permitted_iff_conditions_witness :
    (BatteryState.mk 50 0 0 0 true ["peak"]).discharge_permitted = true ↔
      (BatteryState.mk 50 0 0 0 true ["peak"]).active_discharge_conditions ≠ [] :=
  dispatch_permitted_iff_conditions 100 30 50 18 cfgA true false 1
    (BatteryState.mk 50 0 0 0 true ["peak"]) (by
      have hev : evaluate_discharge_permission 18 30 100 0 cfgA true false =
          ⟨false, false, false, true⟩ := by decide
      norm_num [dispatch_single_timestep, calculate_pv_to_bess,
        calculate_charge_limit, calculate_pv_to_bess_time_window,
        in_charge_window, calculate_grid_charge_power, hev,
        DischargeConditions.any_active, DischargeConditions.active_list,
        calculate_discharge_power, update_soc,
        show cfgA.usable_capacity_kwh = 100 from rfl,
        show cfgA.power_rating_kw = 50 from rfl,
        show cfgA.charge_efficiency = 9/10 from rfl,
        show cfgA.discharge_efficiency = 9/10 from rfl,
        show cfgA.charging_mode = ChargingMode.TIME_WINDOW from rfl,
        show cfgA.grid_charge_mode = GridChargeMode.DISABLED from rfl,
        show cfgA.min_direct_pv_share = 1/10 from rfl,
        show cfgA.active_pv2bess_share = 1/2 from rfl,
        show cfgA.charge_start_hour = 9 from rfl,
        show cfgA.charge_end_hour = 15 from rfl])

/-- Helper: at least one active condition makes the overall decision true. -/
theorem count_active_pos_any_active (dc : DischargeConditions)
    (hdc : 1 ≤ dc.count_active) : dc.any_active = true := by
  rcases dc with ⟨w, a, o, p⟩
  cases w <;> cases a <;> cases o <;> cases p <;>
    simp_all [DischargeConditions.count_active, DischargeConditions.any_active]

/-- C9: in ARBITRAGE mode, inputs on which two or more discharge conditions
are simultaneously true still yield a `DischargeConditions` value (the
function is total — the overlap is only logged), and that value still
permits discharge and records the overlapping conditions. -/
theorem evaluate_discharge_permission_overlap (hour : ℤ) (load solar gls : ℚ)
    (c : BatteryConfig) (peak sunday : Bool)
    (harb : c.strategy_mode = .ARBITRAGE)
    (hmult : 2 ≤ (evaluate_discharge_permission hour load solar gls c peak
      sunday).count_active) :
    (evaluate_discharge_permission hour load solar gls c peak
        sunday).any_active = true ∧
      (evaluate_discharge_permission hour load solar gls c peak
        sunday).active_list ≠ [] := by
  have hone : 1 ≤ (evaluate_discharge_permission hour load solar gls c peak
      sunday).count_active := le_trans (by norm_num) hmult
  have hany := count_active_pos_any_active _ hone
  exact ⟨hany, (any_active_iff_active_list_ne_nil _).mp hany⟩

/-- Closed-form instance of `evaluate_discharge_permission_overlap`: at hour
18 on a peak period with `after_sunset` enabled, three conditions overlap. -/
theorem evaluate_discharge_permission_overlap_witness :
    (evaluate_discharge_permission 18 30 10 20
        { cfgA with after_sunset := true } true false).any_active = true ∧
      (evaluate_discharge_permission 18 30 10 20
        { cfgA with after_sunset := true } true false).active_list ≠ [] :=
  evaluate_discharge_permission_overlap 18 30 10 20
    { cfgA with after_sunset := true } true false rfl (by decide)

/-- C8 counterexample: at the claim's own example input the negative-surplus
failure of `calculate_surplus_generation` is a `ValueError`, not the
`EnergyBalanceError` class named by the claim. -/
theorem calculate_surplus_generation_error_class :
    calculate_surplus_generation 100 60 50 = .error .valueError ∧
      calculate_surplus_generation 100 60 50 ≠ .error .energyBalanceError := by
  have h1 : calculate_surplus_generation 100 60 50 = .error .valueError := by
    norm_num [calculate_surplus_generation]
  refine ⟨h1, ?_⟩
  rw [h1]
  intro hcontra
  exact PyError.noConfusion (Except.error.inj hcontra)

/-- C8 (amended): for non-negative inputs `calculate_surplus_generation`
fails — with `ValueError`, whose message reports the energy-balance
violation — exactly when the unclamped difference is below `−0.001`, and
otherwise returns the difference clamped to zero. -/
theorem calculate_surplus_generation_spec (s d p : ℚ) (hs : 0 ≤ s) (hd : 0 ≤ d)
    (hp : 0 ≤ p) :
    (s - d - p < -(1/1000) →
      calculate_surplus_generation s d p = .error .valueError) ∧
    (¬(s - d - p < -(1/1000)) →
      calculate_surplus_generation s d p = .ok (max (s - d - p) 0)) := by
  simp only [calculate_surplus_generation, if_neg (not_lt.mpr hs),
    if_neg (not_lt.mpr hd), if_neg (not_lt.mpr hp)]
  constructor
  · intro hlt
    rw [if_pos hlt]
  · intro hge
    rw [if_neg hge]

/-- Closed-form instance of `calculate_surplus_generation_spec` at a
balanced concrete input. -/
theorem calculate_surplus_generation_spec_witness :
    ((100:ℚ) - 60 - 30 < -(1/1000) →
      calculate_surplus_generation 100 60 30 = .error .valueError) ∧
    (¬((100:ℚ) - 60 - 30 < -(1/1000)) →
      calculate_surplus_generation 100 60 30 =
        .ok (max ((100:ℚ) - 60 - 30) 0)) :=
  calculate_surplus_generation_spec 100 60 30 (by norm_num) (by norm_num)
    (by norm_num)

/-- C7 counterexample: with efficiency `e = 1/2`, charging `X = 0.01` kW for
one hour from `s0 = 0` and then discharging `X·e` for one hour both succeed,
yet the final SoC equals `s0` (the sub-tolerance deficit is clamped to the
zero floor), refuting strict round-trip loss. -/
theorem update_soc_roundtrip_counterexample :
    (0:ℚ) < 1/100 ∧ (0:ℚ) < 1/2 ∧ (1/2:ℚ) < 1 ∧
      cfgRT.charge_efficiency = 1/2 ∧ cfgRT.discharge_efficiency = 1/2 ∧
      update_soc 0 (1/100) 0 0 cfgRT 1 = .ok (1/200) ∧
      update_soc (1/200) 0 0 (1/100 * (1/2)) cfgRT 1 = .ok 0 ∧
      ¬((0:ℚ) < 0) := by
  refine ⟨by norm_num, by norm_num, by norm_num, rfl, rfl, ?_, ?_, by norm_num⟩
  · norm_num [update_soc, cfgRT, cfgA]
  · norm_num [update_soc, cfgRT, cfgA]

/-- C7 (amended): for a valid config with equal efficiencies `e ∈ (0,1)`, a
non-negative starting SoC, `X > 0`, and both `update_soc` calls succeeding,
the round trip never gains energy (`s2 ≤ s0`), and loses strictly whenever
the discharge step's unclamped result is non-negative (no zero-floor
clamp). -/
theorem update_soc_roundtrip_loss (c : BatteryConfig) (s0 X e s1 s2 : ℚ)
    (hc : ValidConfig c) (hce : c.charge_efficiency = e)
    (hde : c.discharge_efficiency = e) (he0 : 0 < e) (he1 : e < 1) (hX : 0 < X)
    (hs0 : 0 ≤ s0) (h1 : update_soc s0 X 0 0 c 1 = .ok s1)
    (h2 : update_soc s1 0 0 (X * e) c 1 = .ok s2) :
    s2 ≤ s0 ∧ (0 ≤ s1 - X → s2 < s0) := by
  have hcap := hc.1
  have he := update_soc_ok s0 X 0 0 c 1 s1 h1
  have he2 := update_soc_ok s1 0 0 (X * e) c 1 s2 h2
  rw [hce, hde] at he
  rw [hce, hde] at he2
  have harg1 : s0 + (X + 0) * 1 * e - 0 * 1 / e = s0 + X * e := by
    field_simp
  have harg2 : s1 + (0 + 0) * 1 * e - X * e * 1 / e = s1 - X := by
    field_simp
  rw [harg1] at he
  rw [harg2] at he2
  have hXe0 : 0 ≤ X * e := (mul_pos hX he0).le
  have hs1le : s1 ≤ s0 + X * e := by
    rw [he]
    exact (min_le_left _ _).trans (le_of_eq (max_eq_left (by linarith)))
  have hXl : X * e < X := by
    calc X * e < X * 1 := by exact mul_lt_mul_of_pos_left he1 hX
      _ = X := mul_one X
  rcases le_or_lt 0 (s1 - X) with hb | hb
  · have hs2le : s2 ≤ s1 - X := by
      rw [he2, max_eq_left hb]
      exact min_le_left _ _
    have hlt : s2 < s0 := by linarith
    exact ⟨hlt.le, fun _ => hlt⟩
  · have hs2eq : s2 = 0 := by
      rw [he2, max_eq_right hb.le, min_eq_left hcap.le]
    exact ⟨hs2eq ▸ hs0, fun hb' => absurd hb' (not_le.mpr hb)⟩

/-- Closed-form instance of `update_soc_roundtrip_loss`: charging 10 kW then
discharging 9 kW at efficiency 0.9 takes the SoC from 50 to 49. -/
theorem update_soc_roundtrip_loss_witness :
    (49:ℚ) ≤ 50 ∧ ((0:ℚ) ≤ 59 - 10 → (49:ℚ) < 50) :=
  update_soc_roundtrip_loss cfgA 50 10 (9/10) 59 49
    (by norm_num [ValidConfig, cfgA]) rfl rfl (by norm_num) (by norm_num)
    (by norm_num) (by norm_num) (by norm_num [update_soc, cfgA])
    (by norm_num [update_soc, cfgA])

/-- C5: in TIME_WINDOW mode with positive solar, a valid config (PV share a
non-negative ratio), `soc ≥ 0` and positive `step_hours`,
`calculate_pv_to_bess` returns 0 during peak periods or outside the
(possibly midnight-wrapping) charging window, and otherwise returns
`min(available_for_charging · active_pv2bess_share, max_charge_power)`. -/
theorem calculate_pv_to_bess_time_window_spec (solar load soc : ℚ) (hour : ℤ)
    (c : BatteryConfig) (peak : Bool) (h : ℚ) (hc : ValidConfig c)
    (hmode : c.charging_mode = .TIME_WINDOW) (hsolar : 0 < solar) (hsoc : 0 ≤ soc)
    (hh : 0 < h) (hshare : 0 ≤ c.active_pv2bess_share)
    (hhour0 : 0 ≤ hour) (hhour23 : hour ≤ 23) :
    ((peak = true ∨ ¬in_charge_window c hour) →
      calculate_pv_to_bess solar load soc hour c peak h = .ok 0) ∧
    (peak = false → in_charge_window c hour →
      calculate_pv_to_bess solar load soc hour c peak h =
        .ok (min (max (solar - load * c.min_direct_pv_share) 0 *
            c.active_pv2bess_share)
          (min (max (c.usable_capacity_kwh - soc) 0 / c.charge_efficiency / h)
            c.power_rating_kw))) := by
  have hce := hc.2.2.1
  have hL0 : 0 ≤ max (c.usable_capacity_kwh - soc) 0 / c.charge_efficiency / h :=
    div_nonneg (div_nonneg (le_max_right _ _) hce.1.le) hh.le
  have hM0 : 0 ≤ min (max (c.usable_capacity_kwh - soc) 0 / c.charge_efficiency / h)
      c.power_rating_kw := le_min hL0 hc.2.1.le
  have hA0 : 0 ≤ max (solar - load * c.min_direct_pv_share) 0 := le_max_right _ _
  simp only [calculate_pv_to_bess,
    charge_limit_ok soc c.usable_capacity_kwh c.charge_efficiency h hsoc hc.1 hce hh,
    hmode]
  rw [if_neg (not_le.mpr hsolar)]
  by_cases hM : min (max (c.usable_capacity_kwh - soc) 0 / c.charge_efficiency / h)
      c.power_rating_kw ≤ 0
  · rw [if_pos hM]
    have hMeq : min (max (c.usable_capacity_kwh - soc) 0 / c.charge_efficiency / h)
        c.power_rating_kw = 0 := le_antisymm hM hM0
    refine ⟨fun _ => rfl, fun _ _ => ?_⟩
    rw [hMeq, min_eq_right (mul_nonneg hA0 hshare)]
  · rw [if_neg hM]
    by_cases hA : max (solar - load * c.min_direct_pv_share) 0 ≤ 0
    · rw [if_pos hA]
      have hAeq : max (solar - load * c.min_direct_pv_share) 0 = 0 :=
        le_antisymm hA hA0
      refine ⟨fun _ => rfl, fun _ _ => ?_⟩
      rw [hAeq, zero_mul, min_eq_left hM0]
    · rw [if_neg hA]
      constructor
      · intro hor
        simp only [calculate_pv_to_bess_time_window]
        rcases hor with hpk | hnw
        · by_cases hw : in_charge_window c hour
          · rw [if_neg (not_not_intro hw), if_pos hpk]
          · rw [if_pos hw]
        · rw [if_pos hnw]
      · intro hpf hw
        simp only [calculate_pv_to_bess_time_window]
        rw [if_neg (not_not_intro hw), if_neg (by simp [hpf])]

/-- Closed-form instance of `calculate_pv_to_bess_time_window_spec` at hour
10 inside the 9-15 window, off peak. -/
theorem calculate_pv_to_bess_time_window_spec_witness :
    ((false = true ∨ ¬in_charge_window cfgA 10) →
      calculate_pv_to_bess 100 30 50 10 cfgA false 1 = .ok 0) ∧
    (false = false → in_charge_window cfgA 10 →
      calculate_pv_to_bess 100 30 50 10 cfgA false 1 =
        .ok (min (max ((100:ℚ) - 30 * cfgA.min_direct_pv_share) 0 *
            cfgA.active_pv2bess_share)
          (min (max (cfgA.usable_capacity_kwh - 50) 0 / cfgA.charge_efficiency / 1)
            cfgA.power_rating_kw))) :=
  calculate_pv_to_bess_time_window_spec 100 30 50 10 cfgA false 1
    (by norm_num [ValidConfig, cfgA]) rfl (by norm_num) (by norm_num) (by norm_num)
    (by norm_num [cfgA]) (by norm_num) (by norm_num)

end REStorage
